import Mathlib

/-!
Verification of the core of the uv-fastapi transcription service:
the job data model and persistence operations (app/database), the
result-query route (app/api/routers/whisper_tasks.py), the async
model pool (app/model_pool/async_model_pool.py), the retrying HTTP
client (app/http_client/async_http_client.py) and the callback and
scheduler services (app/services).  Each definition is a shallow
embedding of the corresponding Python function.
-/

namespace UVF

/-- Job status enumeration, from app/database/models/task_models.py
(class TaskStatus). -/
inductive TaskStatus where
  | queued
  | processing
  | completed
  | failed
deriving DecidableEq, BEq

/-- Job priority enumeration, from app/database/models/task_models.py
(class TaskPriority). -/
inductive TaskPriority where
  | high
  | normal
  | low
deriving DecidableEq, BEq

/-- The persisted job record, from app/database/models/task_models.py
(class Task).  Datetimes are modelled as natural-number timestamps and
the opaque JSON maps (decode_options, result) as association lists. -/
structure Task where
  id : Int
  task_type : String
  callback_url : Option String
  callback_status_code : Option Int
  callback_message : Option String
  callback_time : Option Nat
  priority : TaskPriority
  status : TaskStatus
  language : Option String
  platform : Option String
  engine_name : Option String
  created_at : Nat
  updated_at : Nat
  task_processing_time : Option Int
  file_path : Option String
  file_name : Option String
  file_url : Option String
  file_size_bytes : Option Int
  file_duration : Option Int
  decode_options : List (String × String)
  result : Option (List (String × String))
  error_message : Option String
  output_url : Option String
deriving DecidableEq, BEq

/-- A convenient base record used to build concrete tasks in examples. -/
def baseTask : Task where
  id := 1
  task_type := "transcribe"
  callback_url := none
  callback_status_code := none
  callback_message := none
  callback_time := none
  priority := TaskPriority.normal
  status := TaskStatus.queued
  language := none
  platform := none
  engine_name := some "faster_whisper"
  created_at := 0
  updated_at := 0
  task_processing_time := none
  file_path := some "/tmp/a.mp3"
  file_name := some "a.mp3"
  file_url := none
  file_size_bytes := some 1000
  file_duration := some 60
  decode_options := []
  result := none
  error_message := none
  output_url := none

/-- The claim cycle fetch, from app/database/database_manager.py
(DatabaseManager.get_queued_tasks).  The SQL statement is
select(Task).where(Task.status == TaskStatus.queued).limit(n): it
filters on status and bounds the row count; it carries no ORDER BY
clause, so rows come back in the storage scan order of the database,
modelled here by the order of the list. -/
def get_queued_tasks (db : List Task) (max_concurrent_tasks : Nat) : List Task :=
  (db.filter (fun t => t.status == TaskStatus.queued)).take max_concurrent_tasks

/-- The callback write-back, from app/database/database_manager.py
(DatabaseManager.update_task_callback_status).  Looks the task up by id;
when present it assigns callback_status_code, callback_message (sliced
to 512 characters, or None when the message is falsy) and
callback_time, and commits.  No other attribute is touched. -/
def update_task_callback_status (t : Option Task) (code : Int)
    (msg : Option String) (time : Nat) : Option Task :=
  match t with
  | none => none
  | some task => some { task with
      callback_status_code := some code
      callback_message :=
        match msg with
        | none => none
        | some s => if s = "" then none else some (s.take 512)
      callback_time := some time }

/-- Modelled from the spec: the enumerations TaskStatusHttpCode and
TaskStatusHttpMessage are imported by app/api/routers/whisper_tasks.py
from app/database/models/task_models.py but their definitions are
absent from the sources.  The spec and the route docstring give the
mapping: queued and processing answer 202, completed answers 200,
failed answers 500, unknown id answers 404. -/
def taskStatusHttpCode (s : TaskStatus) : Nat :=
  match s with
  | TaskStatus.queued => 202
  | TaskStatus.processing => 202
  | TaskStatus.completed => 200
  | TaskStatus.failed => 500

/-- Caller-visible outcome of the result query: a 200 payload response
or an HTTP error response carrying a status code and a message tag. -/
inductive HttpReply where
  | payload (code : Nat) (task : Task)
  | error (code : Nat) (msg : String)
deriving DecidableEq

/-- Body of the try block of task_result, from
app/api/routers/whisper_tasks.py (lines 247 to 301): an absent task
raises HTTPException 404, a queued or processing task raises
HTTPException 202, a failed task raises HTTPException 500, and a
completed task returns the 200 payload.  The Except error side stands
for a raised HTTPException. -/
def task_result_try_body (t : Option Task) : Except (Nat × String) HttpReply :=
  match t with
  | none => Except.error (404, "not found")
  | some task =>
    match task.status with
    | TaskStatus.queued =>
        Except.error (taskStatusHttpCode TaskStatus.queued, "task is queued")
    | TaskStatus.processing =>
        Except.error (taskStatusHttpCode TaskStatus.processing, "task is processing")
    | TaskStatus.failed =>
        Except.error (taskStatusHttpCode TaskStatus.failed, "task failed")
    | TaskStatus.completed => Except.ok (HttpReply.payload 200 task)

/-- The whole task_result handler, from app/api/routers/whisper_tasks.py
(task_result).  The try body is wrapped in a bare except Exception
handler; HTTPException subclasses Exception and the handler carries no
separate except HTTPException branch (unlike task_create), so every
exception raised inside the try block, including the 404 and 202
HTTPExceptions, is replaced by a fresh HTTPException 500 with a generic
message. -/
def task_result (t : Option Task) : HttpReply :=
  match task_result_try_body t with
  | Except.ok reply => reply
  | Except.error _ =>
      HttpReply.error 500 "An unexpected error occurred while getting the task result"

/-- Errors a Python constructor can surface, used by the embedding of
AsyncModelPool construction: a ValueError raised explicitly, or an
AttributeError from reading an attribute that has not been assigned
yet. -/
inductive PyError where
  | valueError
  | attributeError
deriving DecidableEq

/-- Pool sizing, from app/model_pool/async_model_pool.py
(AsyncModelPool.get_optimal_max_size).  The method clamps the user
max_size to at least 1; with zero visible GPUs it answers 1 when the
CPU thread count is at most 4 and otherwise the minimum of the clamped
input and half the thread count; with one GPU it answers 1; with
several GPUs it reads self.max_instances_per_gpu and answers the
minimum of the clamped input and num_gpus times that attribute.  The
attribute is passed as an Option because the single call site, inside
the constructor, runs one line before the attribute is assigned; a
read of the unassigned attribute is an AttributeError. -/
def get_optimal_max_size (self_max_instances_per_gpu : Option Nat)
    (num_gpus num_cpu_threads : Nat) (max_size : Int) : Except PyError Nat :=
  let clamped : Nat := if max_size < 1 then 1 else max_size.toNat
  if num_gpus = 0 then
    Except.ok (if num_cpu_threads ≤ 4 then 1 else min clamped (num_cpu_threads / 2))
  else if num_gpus = 1 then
    Except.ok 1
  else
    match self_max_instances_per_gpu with
    | none => Except.error PyError.attributeError
    | some m => Except.ok (min clamped (num_gpus * m))

/-- Constructor arguments of AsyncModelPool that the embedded model
needs (engine kind and pool sizing), from
app/model_pool/async_model_pool.py (AsyncModelPool.init arguments). -/
structure PoolConfig where
  engine : String
  min_size : Int := 1
  max_size : Int := 1
  max_instances_per_gpu : Nat := 1
deriving DecidableEq

/-- Hardware topology the pool inspects through torch: the visible GPU
count and the CPU thread count. -/
structure Topology where
  num_gpus : Nat
  num_cpu_threads : Nat
deriving DecidableEq

/-- Mutable state of the pool: the engine kind, the corrected capacity
max_size, the idle queue (an asyncio.Queue with maxsize equal to
max_size, modelled as the list of queued instance identifiers) and the
live instance counter current_size (a Python int, possibly driven
below zero only through the explicit floor in destroy). -/
structure PoolState where
  engine : String
  min_size : Int
  max_size : Nat
  max_instances_per_gpu : Nat
  num_gpus : Nat
  queue : List Nat
  current_size : Int
deriving DecidableEq

/-- Pool construction, from app/model_pool/async_model_pool.py
(AsyncModelPool.init, first construction of the singleton).  It
validates min_size against max_size, stores the engine without
checking it, and computes self.max_size by calling
get_optimal_max_size one line before self.max_instances_per_gpu is
assigned, so that call sees the attribute unset; the idle queue is
created empty with maxsize equal to the corrected capacity and
current_size starts at zero. -/
def AsyncModelPool.construct (cfg : PoolConfig) (topo : Topology) :
    Except PyError PoolState :=
  if cfg.min_size > cfg.max_size then
    Except.error PyError.valueError
  else
    match get_optimal_max_size none topo.num_gpus topo.num_cpu_threads cfg.max_size with
    | Except.error e => Except.error e
    | Except.ok corrected =>
        Except.ok {
          engine := cfg.engine
          min_size := cfg.min_size
          max_size := corrected
          max_instances_per_gpu := cfg.max_instances_per_gpu
          num_gpus := topo.num_gpus
          queue := []
          current_size := 0 }

/-- Outcome of one call to create_and_put_model: normal completion with
the updated state, an exception swallowed by the except block with the
state unchanged, or an await that never completes. -/
inductive CreateResult where
  | ok (st : PoolState)
  | loggedError (st : PoolState)
  | hang
deriving DecidableEq

/-- Instance creation, from app/model_pool/async_model_pool.py
(AsyncModelPool.create_and_put_model).  Inside a try block it
dispatches on the engine kind, raising ValueError for an unrecognized
engine; a model-load failure also raises there.  Both are caught by
the except Exception handler and only logged, leaving the state
unchanged.  On success the model is put into the idle queue (an await
that blocks forever when the queue is full) and then current_size is
incremented under size_lock: acquiring that non-reentrant asyncio.Lock
while the caller already holds it never completes. -/
def create_and_put_model (st : PoolState) (instance_index : Nat)
    (creation_ok : Bool) (caller_holds_size_lock : Bool) : CreateResult :=
  if st.engine = "faster_whisper" ∨ st.engine = "openai_whisper" then
    if creation_ok then
      if st.queue.length < st.max_size then
        if caller_holds_size_lock then
          CreateResult.hang
        else
          CreateResult.ok { st with
            queue := st.queue ++ [instance_index]
            current_size := st.current_size + 1 }
      else
        CreateResult.hang
    else
      CreateResult.loggedError st
  else
    CreateResult.loggedError st

/-- Outcome of one acquire call: a value returned to the caller (the
model instance, or None on the path that falls off the function body
without a return statement), a raised RuntimeError with its message,
or an await that never completes. -/
inductive GetOutcome where
  | returned (model : Option Nat) (st : PoolState)
  | raised (msg : String) (st : PoolState)
  | hang
deriving DecidableEq

/-- Message of the RuntimeError the outer except Exception handler of
get_model raises after logging, replacing whatever exception reached
it. -/
def getModelGenericMsg : String :=
  "Unexpected error occurred while retrieving a model instance"

/-- Instance acquisition, from app/model_pool/async_model_pool.py
(AsyncModelPool.get_model), for a single caller with no concurrent
producer, so a bounded wait on an empty idle queue times out and an
unbounded wait on it never completes.  Strategy existing: a nonempty
queue answers its head; on timeout, under size_lock, a pool below
capacity calls create_and_put_model while still holding size_lock and
then awaits pool.get(); a pool at capacity raises the pool-exhausted
RuntimeError, which the outer except Exception replaces with the
generic RuntimeError.  Strategy dynamic: a plain bounded wait whose
branch carries no return statement, so the popped instance is dropped
and None is returned; its timeout also surfaces as the generic
RuntimeError.  Any other strategy is a plain bounded wait that does
return the instance. -/
def get_model (st : PoolState) (strategy : String) (creation_ok : Bool) :
    GetOutcome :=
  if strategy = "existing" then
    match st.queue with
    | m :: rest => GetOutcome.returned (some m) { st with queue := rest }
    | [] =>
      if st.current_size < (st.max_size : Int) then
        match create_and_put_model st st.current_size.toNat creation_ok true with
        | CreateResult.hang => GetOutcome.hang
        | CreateResult.loggedError st2 =>
            match st2.queue with
            | m :: rest => GetOutcome.returned (some m) { st2 with queue := rest }
            | [] => GetOutcome.hang
        | CreateResult.ok st2 =>
            match st2.queue with
            | m :: rest => GetOutcome.returned (some m) { st2 with queue := rest }
            | [] => GetOutcome.hang
      else
        GetOutcome.raised getModelGenericMsg st
  else if strategy = "dynamic" then
    match st.queue with
    | _ :: rest => GetOutcome.returned none { st with queue := rest }
    | [] => GetOutcome.raised getModelGenericMsg st
  else
    match st.queue with
    | m :: rest => GetOutcome.returned (some m) { st with queue := rest }
    | [] => GetOutcome.raised getModelGenericMsg st

/-- Instance destruction, from app/model_pool/async_model_pool.py
(AsyncModelPool.destroy_model): the reference is dropped, the CUDA
cache is cleared only on a single-GPU system, and under size_lock the
live counter is set to max(0, current_size - 1). -/
def destroy_model (st : PoolState) : PoolState :=
  { st with current_size := max 0 (st.current_size - 1) }

/-- Outcome of one release call: the instance went back to the idle
queue, or it was destroyed. -/
inductive ReturnOutcome where
  | enqueued (st : PoolState)
  | destroyed (st : PoolState)
deriving DecidableEq

/-- Instance release, from app/model_pool/async_model_pool.py
(AsyncModelPool.return_model).  A full idle queue (qsize at maxsize)
destroys the instance instead of enqueuing it; otherwise pool.put
enqueues it, and any exception raised while returning (put_raises)
lands in one of the two except branches, both of which destroy the
instance. -/
def return_model (st : PoolState) (m : Nat) (put_raises : Bool) : ReturnOutcome :=
  if st.queue.length ≥ st.max_size then
    ReturnOutcome.destroyed (destroy_model st)
  else if put_raises then
    ReturnOutcome.destroyed (destroy_model st)
  else
    ReturnOutcome.enqueued { st with queue := st.queue ++ [m] }

/-- Scheduler concurrency clamp, from app/services/whisper_service.py
(WhisperService.get_optimal_max_concurrent_tasks).  A value below 1
becomes 1; a value above the maxsize of the model pool queue is
reduced to that maxsize; anything else passes through. -/
def get_optimal_max_concurrent_tasks (max_concurrent_tasks : Int)
    (pool_maxsize : Nat) : Int :=
  let m : Int := if max_concurrent_tasks < 1 then 1 else max_concurrent_tasks
  if m > pool_maxsize then (pool_maxsize : Int) else m

/-- Outcome of one underlying httpx request, from the point of view of
fetch_data: a response with a body and a status code, a network-level
httpx.RequestError, or an httpx.HTTPStatusError carrying a status
code. -/
inductive HttpAttempt where
  | response (body : String) (status : Nat)
  | requestError
  | statusError (code : Nat)
deriving DecidableEq

/-- Result of fetch_data: a returned response, a raised typed APIError
identified by its class name, or the implicit None returned when the
retry loop runs zero iterations. -/
inductive FetchResult where
  | ok (body : String) (status : Nat)
  | apiError (name : String)
  | noAttempt
deriving DecidableEq

/-- Status-code classification, from app/http_client/async_http_client.py
(AsyncHttpClient.handle_http_status_error): 404, 503, 408, 401 and 429
map to dedicated APIError subclasses and every other code to
APIResponseError. -/
def classify_status_error (code : Nat) : String :=
  if code = 404 then "APINotFoundError"
  else if code = 503 then "APIUnavailableError"
  else if code = 408 then "APITimeoutError"
  else if code = 401 then "APIUnauthorizedError"
  else if code = 429 then "APIRateLimitError"
  else "APIResponseError"

/-- Emptiness test fetch_data applies to a response: retry when
response.text.strip() is empty or response.content is empty; a strip
of default whitespace yields the empty string exactly when every
character of the body is whitespace, which also covers the empty
body. -/
def blankBody (body : String) : Bool :=
  body.data.all (fun c => c.isWhitespace)

/-- One pass of the retry loop of fetch_data, from
app/http_client/async_http_client.py (AsyncHttpClient.fetch_data),
structured on the number of remaining loop iterations; idx is the
current value of the loop variable attempt and backoff the current
backoff.  A blank body on the last iteration raises
APIRetryExhaustedError; a blank body earlier sleeps the current
backoff, doubles it and continues; a non-blank body is returned; a
RequestError raises APIConnectionError at once and an HTTPStatusError
raises its classified error at once.  The returned list records the
sleeps performed, in order. -/
def fetch_data_go (attempts : Nat → HttpAttempt) :
    Nat → Nat → ℚ → FetchResult × List ℚ
  | 0, _, _ => (FetchResult.noAttempt, [])
  | remaining + 1, idx, backoff =>
    match attempts idx with
    | HttpAttempt.response body status =>
      if blankBody body then
        if remaining = 0 then
          (FetchResult.apiError "APIRetryExhaustedError", [])
        else
          let rest := fetch_data_go attempts remaining (idx + 1) (backoff * 2)
          (rest.1, backoff :: rest.2)
      else
        (FetchResult.ok body status, [])
    | HttpAttempt.requestError => (FetchResult.apiError "APIConnectionError", [])
    | HttpAttempt.statusError code =>
        (FetchResult.apiError (classify_status_error code), [])

/-- The retrying request executor, from
app/http_client/async_http_client.py (AsyncHttpClient.fetch_data): for
attempt in range(retry_limit), starting from the base backoff.  The
attempts function gives the outcome the server produces for each
attempt index. -/
def fetch_data (attempts : Nat → HttpAttempt) (retry_limit : Nat)
    (base_backoff : ℚ) : FetchResult × List ℚ :=
  fetch_data_go attempts retry_limit 0 base_backoff

/-- A response attempt is a retry trigger when it is an actual response
whose body is blank. -/
def isBlankResponse : HttpAttempt → Bool
  | HttpAttempt.response body _ => blankBody body
  | HttpAttempt.requestError => false
  | HttpAttempt.statusError _ => false

/-! ## Concrete states used by the claim theorems -/

/-- Two queued tasks whose storage order is the reverse of their
creation order: the task stored first was created later. -/
def taskLater : Task := { baseTask with id := 1, created_at := 5 }

/-- The earlier-created of the two tasks. -/
def taskEarlier : Task := { baseTask with id := 2, created_at := 3 }

/-- A database whose scan order disagrees with creation order. -/
def dbUnordered : List Task := [taskLater, taskEarlier]

/-- A queued task used to evaluate the result-query route. -/
def queuedTaskEx : Task := { baseTask with id := 10, status := TaskStatus.queued }

/-- A completed task carrying a result payload. -/
def completedTaskEx : Task :=
  { baseTask with
    id := 11
    status := TaskStatus.completed
    result := some [("text", "hello")] }

/-- A multi-GPU host. -/
def topoMulti : Topology := { num_gpus := 2, num_cpu_threads := 8 }

/-- A CPU-only host with few threads. -/
def topoCpu : Topology := { num_gpus := 0, num_cpu_threads := 4 }

/-- A valid configuration asking for two instances on two GPUs. -/
def cfgMulti : PoolConfig :=
  { engine := "faster_whisper", min_size := 1, max_size := 2,
    max_instances_per_gpu := 1 }

/-- A configuration naming an engine the code does not recognize. -/
def cfgBogus : PoolConfig :=
  { engine := "bogus_engine", min_size := 1, max_size := 1,
    max_instances_per_gpu := 1 }

/-- A pool of capacity 2 holding one live instance that is currently
leased out, so the idle queue is empty. -/
def stBelowCap : PoolState :=
  { engine := "faster_whisper", min_size := 1, max_size := 2,
    max_instances_per_gpu := 1, num_gpus := 2, queue := [], current_size := 1 }

/-- A pool of capacity 2 with one idle instance in its queue. -/
def stOneIdle : PoolState :=
  { engine := "faster_whisper", min_size := 1, max_size := 2,
    max_instances_per_gpu := 1, num_gpus := 2, queue := [7], current_size := 1 }

/-- A pool of capacity 1 whose idle queue is already full. -/
def stFull : PoolState :=
  { engine := "faster_whisper", min_size := 1, max_size := 1,
    max_instances_per_gpu := 1, num_gpus := 0, queue := [3], current_size := 1 }

/-- A pool state carrying the unrecognized engine kind. -/
def stBogus : PoolState :=
  { engine := "bogus_engine", min_size := 1, max_size := 1,
    max_instances_per_gpu := 1, num_gpus := 0, queue := [], current_size := 0 }

/-- A server that answers blank bodies on the first two attempts and a
valid body on the third. -/
def attemptsEx : Nat → HttpAttempt := fun i =>
  if i < 2 then HttpAttempt.response "" 200 else HttpAttempt.response "done" 200

/-! ## Claim theorems -/

/-- C1, counterexample.  The claim says get_queued_tasks returns the
queued jobs ordered by creation time, oldest first.  The query has no
ORDER BY clause: on a database whose scan order stores the
later-created queued task first, the returned list is not sorted by
created_at. -/
theorem get_queued_tasks_not_creation_ordered :
    ¬ (get_queued_tasks dbUnordered 2).Pairwise
        (fun a b => a.created_at ≤ b.created_at) := by
  decide

/-- C1, amended.  For every database state and limit, get_queued_tasks
returns at most the requested number of jobs, every returned job has
status queued, and the jobs come back as a sublist of the database in
its scan order; no creation-time ordering is applied. -/
theorem get_queued_tasks_limited_queued_in_scan_order (db : List Task) (n : Nat) :
    (get_queued_tasks db n).length ≤ n ∧
    (get_queued_tasks db n).all (fun t => t.status == TaskStatus.queued) = true ∧
    (get_queued_tasks db n).Sublist db := by
  refine ⟨?_, ?_, ?_⟩
  · simp [get_queued_tasks]
  · simp only [get_queued_tasks, List.all_eq_true]
    intro t ht
    have hmem : t ∈ (db.filter (fun t => t.status == TaskStatus.queued)) :=
      List.mem_of_mem_take ht
    exact (List.mem_filter.mp hmem).2
  · exact (List.take_sublist _ _).trans (List.filter_sublist _)

/-- C2.  The claim says task_result answers 202 for queued or
processing, 200 for completed, an error payload for failed and 404 for
an unknown id.  The try body does raise those HTTPExceptions, but the
handler has no except HTTPException branch, so the blanket except
Exception turns the 404 and both 202 outcomes into a generic 500
response; only the completed case reaches the caller as claimed. -/
theorem task_result_blanket_except_wraps_errors_to_500 :
    task_result none =
      HttpReply.error 500 "An unexpected error occurred while getting the task result" ∧
    task_result (some queuedTaskEx) =
      HttpReply.error 500 "An unexpected error occurred while getting the task result" ∧
    task_result (some { baseTask with status := TaskStatus.processing }) =
      HttpReply.error 500 "An unexpected error occurred while getting the task result" ∧
    task_result (some completedTaskEx) = HttpReply.payload 200 completedTaskEx ∧
    task_result_try_body none = Except.error (404, "not found") ∧
    task_result_try_body (some queuedTaskEx) = Except.error (202, "task is queued") := by
  exact ⟨rfl, rfl, rfl, rfl, rfl, rfl⟩

/-- C3.  The claim says the corrected value of get_optimal_max_size
becomes the pool capacity for every topology.  The standalone sizing
computation does match the claim (second conjunct), and construction
works on a CPU-only host (third conjunct), but the constructor calls
get_optimal_max_size one line before assigning
self.max_instances_per_gpu, so on a multi-GPU host construction
raises AttributeError instead of installing min(2, 2 x 1) = 2 as the
capacity. -/
theorem pool_construct_multi_gpu_attribute_error :
    AsyncModelPool.construct cfgMulti topoMulti = Except.error PyError.attributeError ∧
    get_optimal_max_size (some 1) 2 8 2 = Except.ok 2 ∧
    AsyncModelPool.construct cfgMulti topoCpu =
      Except.ok { engine := "faster_whisper", min_size := 1, max_size := 1,
                  max_instances_per_gpu := 1, num_gpus := 0, queue := [],
                  current_size := 0 } := by
  exact ⟨rfl, rfl, rfl⟩

/-- C4.  The claim says that on timeout with room left, strategy
existing synchronously creates a new instance and returns it.  In the
code the creation call runs while get_model still holds size_lock and
create_and_put_model re-acquires that non-reentrant lock, so the call
hangs forever (first conjunct); when creation itself fails the
swallowed exception leads to an unbounded pool.get() on an empty queue,
which also hangs (second conjunct).  At capacity the call does raise,
but the pool-exhausted RuntimeError is replaced by the generic
RuntimeError of the outer handler (third conjunct). -/
theorem get_model_existing_timeout_create_deadlocks :
    get_model stBelowCap "existing" true = GetOutcome.hang ∧
    get_model stBelowCap "existing" false = GetOutcome.hang ∧
    get_model { stBelowCap with max_size := 1, current_size := 1 } "existing" true =
      GetOutcome.raised getModelGenericMsg
        { stBelowCap with max_size := 1, current_size := 1 } := by
  exact ⟨rfl, rfl, rfl⟩

/-- C5.  The claim says strategy dynamic returns the idle instance
obtained within the timeout.  The dynamic branch has no return
statement: the instance is popped from the idle queue and dropped, and
the caller receives None (first conjunct); on timeout the TimeoutError
is replaced by the generic RuntimeError of the outer handler (second
conjunct). -/
theorem get_model_dynamic_drops_instance_returns_none :
    get_model stOneIdle "dynamic" true =
      GetOutcome.returned none { stOneIdle with queue := [] } ∧
    get_model { stOneIdle with queue := [] } "dynamic" true =
      GetOutcome.raised getModelGenericMsg { stOneIdle with queue := [] } := by
  exact ⟨rfl, rfl⟩

/-- C6.  For every release: a full idle queue destroys the returned
instance, decrementing the live counter with a floor at zero and
leaving the queue unchanged; an exception while returning also
destroys it; otherwise the instance is enqueued and the live counter
is untouched, so no instance is leaked. -/
theorem return_model_full_destroys_else_enqueues (st : PoolState) (m : Nat) (p : Bool) :
    (st.queue.length ≥ st.max_size →
      return_model st m p = ReturnOutcome.destroyed (destroy_model st) ∧
      (destroy_model st).current_size = max 0 (st.current_size - 1) ∧
      (destroy_model st).queue = st.queue) ∧
    (st.queue.length < st.max_size → p = true →
      return_model st m p = ReturnOutcome.destroyed (destroy_model st)) ∧
    (st.queue.length < st.max_size → p = false →
      return_model st m p =
        ReturnOutcome.enqueued { st with queue := st.queue ++ [m] } ∧
      ({ st with queue := st.queue ++ [m] } : PoolState).current_size =
        st.current_size) := by
  refine ⟨?_, ?_, ?_⟩
  · intro h
    exact ⟨by simp [return_model, h], rfl, rfl⟩
  · intro h hp
    simp [return_model, Nat.not_le.mpr h, hp]
  · intro h hp
    exact ⟨by simp [return_model, Nat.not_le.mpr h, hp], rfl⟩

/-- C6, witness: releasing into a full pool of capacity 1 destroys the
instance and floors the counter. -/
theorem return_model_full_destroys_else_enqueues_witness :
    return_model stFull 9 false = ReturnOutcome.destroyed (destroy_model stFull) ∧
    (destroy_model stFull).current_size = max 0 (stFull.current_size - 1) ∧
    (destroy_model stFull).queue = stFull.queue :=
  (return_model_full_destroys_else_enqueues stFull 9 false).1 (by decide)

/-- C7.  For every job and completed delivery with a non-empty response
body, the callback write-back sets exactly callback_status_code,
callback_message (the body truncated to 512 characters) and
callback_time, and leaves every other field of the job, in particular
its status, unchanged. -/
theorem update_task_callback_status_sets_only_callback_fields
    (t : Task) (code : Int) (msg : String) (time : Nat) (h : msg ≠ "") :
    ∃ t2, update_task_callback_status (some t) code (some msg) time = some t2 ∧
      t2.callback_status_code = some code ∧
      t2.callback_message = some (msg.take 512) ∧
      t2.callback_time = some time ∧
      t2.id = t.id ∧ t2.task_type = t.task_type ∧
      t2.callback_url = t.callback_url ∧ t2.priority = t.priority ∧
      t2.status = t.status ∧ t2.language = t.language ∧
      t2.platform = t.platform ∧ t2.engine_name = t.engine_name ∧
      t2.created_at = t.created_at ∧ t2.updated_at = t.updated_at ∧
      t2.task_processing_time = t.task_processing_time ∧
      t2.file_path = t.file_path ∧ t2.file_name = t.file_name ∧
      t2.file_url = t.file_url ∧ t2.file_size_bytes = t.file_size_bytes ∧
      t2.file_duration = t.file_duration ∧
      t2.decode_options = t.decode_options ∧ t2.result = t.result ∧
      t2.error_message = t.error_message ∧ t2.output_url = t.output_url := by
  refine ⟨{ t with callback_status_code := some code
                   callback_message := some (msg.take 512)
                   callback_time := some time }, ?_, ?_⟩
  · simp [update_task_callback_status, h]
  · exact ⟨rfl, rfl, rfl, rfl, rfl, rfl, rfl, rfl, rfl, rfl, rfl, rfl,
      rfl, rfl, rfl, rfl, rfl, rfl, rfl, rfl, rfl, rfl, rfl⟩

/-- C7, witness: a delivery attempt that reached status 200 with body
ok updates only the three callback fields of the base task. -/
theorem update_task_callback_status_sets_only_callback_fields_witness :
    ∃ t2, update_task_callback_status (some baseTask) 200 (some "ok") 99 = some t2 ∧
      t2.callback_status_code = some 200 ∧
      t2.callback_message = some ((("ok" : String)).take 512) ∧
      t2.callback_time = some 99 ∧
      t2.id = baseTask.id ∧ t2.task_type = baseTask.task_type ∧
      t2.callback_url = baseTask.callback_url ∧ t2.priority = baseTask.priority ∧
      t2.status = baseTask.status ∧ t2.language = baseTask.language ∧
      t2.platform = baseTask.platform ∧ t2.engine_name = baseTask.engine_name ∧
      t2.created_at = baseTask.created_at ∧ t2.updated_at = baseTask.updated_at ∧
      t2.task_processing_time = baseTask.task_processing_time ∧
      t2.file_path = baseTask.file_path ∧ t2.file_name = baseTask.file_name ∧
      t2.file_url = baseTask.file_url ∧
      t2.file_size_bytes = baseTask.file_size_bytes ∧
      t2.file_duration = baseTask.file_duration ∧
      t2.decode_options = baseTask.decode_options ∧ t2.result = baseTask.result ∧
      t2.error_message = baseTask.error_message ∧
      t2.output_url = baseTask.output_url :=
  update_task_callback_status_sets_only_callback_fields baseTask 200 "ok" 99 (by decide)

/-- Helper: prepending the first backoff to the doubled-backoff sleep
schedule of the remaining retries gives the sleep schedule of the whole
run. -/
theorem sleeps_cons (r : Nat) (b : ℚ) (hr : 0 < r) :
    b :: (List.range (r - 1)).map (fun i => 2 ^ i * (b * 2)) =
    (List.range r).map (fun i => (2 : ℚ) ^ i * b) := by
  obtain ⟨s, rfl⟩ : ∃ s, r = s + 1 := ⟨r - 1, by omega⟩
  rw [List.range_succ_eq_map]
  simp only [Nat.add_sub_cancel, List.map_cons, List.map_map, pow_zero, one_mul]
  refine List.cons_eq_cons.mpr ⟨rfl, ?_⟩
  refine List.map_congr_left ?_
  intro i _
  simp [pow_succ]
  ring

/-- Helper: when every attempt in the window yields a blank-body
response, the retry loop sleeps the doubling schedule and ends in
APIRetryExhaustedError. -/
theorem fetch_go_all_blank (attempts : Nat → HttpAttempt) :
    ∀ (r idx : Nat) (b : ℚ), 0 < r →
    (∀ i, i < r → isBlankResponse (attempts (idx + i)) = true) →
    fetch_data_go attempts r idx b =
      (FetchResult.apiError "APIRetryExhaustedError",
       (List.range (r - 1)).map (fun i => 2 ^ i * b)) := by
  intro r
  induction r with
  | zero => intro idx b h; omega
  | succ r ih =>
    intro idx b _ hblank
    have h0 := hblank 0 (by omega)
    rw [Nat.add_zero] at h0
    cases hA : attempts idx with
    | response body status =>
      rw [hA] at h0
      have hb : blankBody body = true := by simpa [isBlankResponse] using h0
      by_cases hr : r = 0
      · subst hr
        simp [fetch_data_go, hA, hb]
      · have ih2 := ih (idx + 1) (b * 2) (Nat.pos_of_ne_zero hr) (fun i hi => by
          have hh := hblank (i + 1) (by omega)
          rwa [show idx + (i + 1) = (idx + 1) + i by omega] at hh)
        simp only [fetch_data_go, hA, hb, if_true, hr, if_false, ih2]
        refine Prod.ext rfl ?_
        simpa using sleeps_cons r b (Nat.pos_of_ne_zero hr)
    | requestError => rw [hA] at h0; simp [isBlankResponse] at h0
    | statusError code => rw [hA] at h0; simp [isBlankResponse] at h0

/-- Helper: when the first k attempts yield blank bodies and attempt k,
still inside the retry window, yields a non-blank response, the loop
returns that response after sleeping the doubling schedule of length
k. -/
theorem fetch_go_success (attempts : Nat → HttpAttempt) :
    ∀ (k r idx : Nat) (b : ℚ) (body : String) (status : Nat), k < r →
    (∀ i, i < k → isBlankResponse (attempts (idx + i)) = true) →
    attempts (idx + k) = HttpAttempt.response body status →
    blankBody body = false →
    fetch_data_go attempts r idx b =
      (FetchResult.ok body status, (List.range k).map (fun i => 2 ^ i * b)) := by
  intro k
  induction k with
  | zero =>
    intro r idx b body status hkr _ hA hb
    rw [Nat.add_zero] at hA
    obtain ⟨s, rfl⟩ : ∃ s, r = s + 1 := ⟨r - 1, by omega⟩
    simp [fetch_data_go, hA, hb]
  | succ k ih =>
    intro r idx b body status hkr hblank hA hb
    obtain ⟨s, rfl⟩ : ∃ s, r = s + 1 := ⟨r - 1, by omega⟩
    have h0 := hblank 0 (by omega)
    rw [Nat.add_zero] at h0
    cases hA0 : attempts idx with
    | response body0 status0 =>
      rw [hA0] at h0
      have hb0 : blankBody body0 = true := by simpa [isBlankResponse] using h0
      have hs : s ≠ 0 := by omega
      have ih2 := ih s (idx + 1) (b * 2) body status (by omega)
        (fun i hi => by
          have hh := hblank (i + 1) (by omega)
          rwa [show idx + (i + 1) = (idx + 1) + i by omega] at hh)
        (by rwa [show (idx + 1) + k = idx + (k + 1) by omega]) hb
      simp only [fetch_data_go, hA0, hb0, if_true]
      rw [if_neg hs, ih2]
      refine Prod.ext rfl ?_
      simpa using sleeps_cons (k + 1) b (by omega)
    | requestError => rw [hA0] at h0; simp [isBlankResponse] at h0
    | statusError code => rw [hA0] at h0; simp [isBlankResponse] at h0

/-- C8.  With retry limit 3 and base backoff b, two blank-body
responses followed by a valid body make fetch_data succeed on the
third attempt after sleeping b then 2b; and for every positive retry
limit, a run of only blank bodies sleeps the doubling schedule and
raises APIRetryExhaustedError. -/
theorem fetch_data_retries_empty_body_with_doubling_backoff
    (attempts : Nat → HttpAttempt) (b : ℚ) :
    (∀ (body : String) (status : Nat),
      isBlankResponse (attempts 0) = true →
      isBlankResponse (attempts 1) = true →
      attempts 2 = HttpAttempt.response body status →
      blankBody body = false →
      fetch_data attempts 3 b = (FetchResult.ok body status, [b, 2 * b])) ∧
    (∀ rl, 0 < rl →
      (∀ i, i < rl → isBlankResponse (attempts i) = true) →
      fetch_data attempts rl b =
        (FetchResult.apiError "APIRetryExhaustedError",
         (List.range (rl - 1)).map (fun i => 2 ^ i * b))) := by
  constructor
  · intro body status h0 h1 hA hb
    have h := fetch_go_success attempts 2 3 0 b body status (by omega)
      (fun i hi => by
        interval_cases i
        · simpa using h0
        · simpa using h1)
      (by simpa using hA) hb
    rw [fetch_data, h]
    norm_num [List.range_succ]
  · intro rl hrl hblank
    exact fetch_go_all_blank attempts rl 0 b hrl (fun i hi => by simpa using hblank i hi)

/-- C8, witness: against a server answering two blank bodies then the
body done, the client with retry limit 3 and base backoff 1 succeeds on
the third attempt after sleeping 1 and 2 seconds; a server answering
only blank bodies exhausts the retries after the same sleeps. -/
theorem fetch_data_retries_empty_body_with_doubling_backoff_witness :
    fetch_data attemptsEx 3 1 = (FetchResult.ok "done" 200, [1, 2]) ∧
    fetch_data (fun _ => HttpAttempt.response "" 200) 3 1 =
      (FetchResult.apiError "APIRetryExhaustedError", [1, 2]) := by
  constructor
  · have h := (fetch_data_retries_empty_body_with_doubling_backoff attemptsEx 1).1
      "done" 200 (by decide) (by decide) (by decide) (by decide)
    simpa using h
  · have h := (fetch_data_retries_empty_body_with_doubling_backoff
      (fun _ => HttpAttempt.response "" 200) 1).2 3 (by omega) (fun i _ => by decide)
    rw [h]
    norm_num [List.range_succ]

/-- C9, counterexample.  The claim says an unrecognized engine kind
raises at Pool construction time.  Constructing the pool with the
engine bogus_engine on a CPU-only host succeeds: the constructor
stores the engine string without checking it. -/
theorem pool_construct_invalid_engine_succeeds :
    AsyncModelPool.construct cfgBogus topoCpu =
      Except.ok { engine := "bogus_engine", min_size := 1, max_size := 1,
                  max_instances_per_gpu := 1, num_gpus := 0, queue := [],
                  current_size := 0 } := by
  exact rfl

/-- C9, amended.  Construction with an unrecognized engine kind does
not raise; the ValueError for the bad engine is raised only inside
create_and_put_model during instance creation, where the surrounding
except Exception handler catches and logs it, leaving the pool state
unchanged, so startup continues non-fatally with an empty pool. -/
theorem invalid_engine_create_logged_non_fatal :
    (AsyncModelPool.construct cfgBogus topoCpu).isOk = true ∧
    ∀ (st : PoolState) (i : Nat) (c l : Bool),
      st.engine ≠ "faster_whisper" → st.engine ≠ "openai_whisper" →
      create_and_put_model st i c l = CreateResult.loggedError st := by
  refine ⟨rfl, ?_⟩
  intro st i c l h1 h2
  simp [create_and_put_model, h1, h2]

/-- C9, witness: instance creation on the bogus-engine pool state is a
logged error that leaves the state unchanged. -/
theorem invalid_engine_create_logged_non_fatal_witness :
    create_and_put_model stBogus 0 true false = CreateResult.loggedError stBogus :=
  invalid_engine_create_logged_non_fatal.2 stBogus 0 true false (by decide) (by decide)

/-- C10.  For every configured max_concurrent_tasks and every pool
with capacity at least 1, the effective scheduler concurrency is at
least 1 and at most the pool capacity: values below 1 become 1, values
above the capacity become the capacity, and values in range pass
through unchanged. -/
theorem get_optimal_max_concurrent_tasks_clamped (mct : Int) (ps : Nat) (h : 1 ≤ ps) :
    1 ≤ get_optimal_max_concurrent_tasks mct ps ∧
    get_optimal_max_concurrent_tasks mct ps ≤ ps ∧
    (mct < 1 → get_optimal_max_concurrent_tasks mct ps = 1) ∧
    (mct > ps → get_optimal_max_concurrent_tasks mct ps = ps) ∧
    (1 ≤ mct → mct ≤ ps → get_optimal_max_concurrent_tasks mct ps = mct) := by
  simp only [get_optimal_max_concurrent_tasks]
  split_ifs <;> refine ⟨by omega, by omega, by omega, by omega, by omega⟩

/-- C10, witness: with pool capacity 4 the configured values 0, 9 and 3
become 1, 4 and 3. -/
theorem get_optimal_max_concurrent_tasks_clamped_witness :
    (1 ≤ get_optimal_max_concurrent_tasks 0 4 ∧
      get_optimal_max_concurrent_tasks 0 4 ≤ 4 ∧
      get_optimal_max_concurrent_tasks 0 4 = 1) ∧
    get_optimal_max_concurrent_tasks 9 4 = 4 ∧
    get_optimal_max_concurrent_tasks 3 4 = 3 := by
  have h0 := get_optimal_max_concurrent_tasks_clamped 0 4 (by omega)
  have h9 := get_optimal_max_concurrent_tasks_clamped 9 4 (by omega)
  have h3 := get_optimal_max_concurrent_tasks_clamped 3 4 (by omega)
  exact ⟨⟨h0.1, h0.2.1, h0.2.2.1 (by omega)⟩,
    h9.2.2.2.1 (by omega), h3.2.2.2.2 (by omega) (by omega)⟩

end UVF
